import Mathlib

/-!
Shallow embedding of `src/genyx_final.py` (Genyx AI command-line client):
the inference client `QwenClient.generate`, the persistence layer
`BrainHistory`, the learning logger, and the orchestrator task handlers
`GenyxAI.generate_prompt` / `GenyxAI.create_mindmap`.

Python values decoded from JSON are modelled by the inductive `Json`
(numbers as `Int`; a JSON object models a Python `dict`, whose keys are
unique, as an association list).  Machine-level effects (printing, the
actual socket, the file system) are modelled by explicit data: the HTTP
exchange is a value of `HttpResult`, files are `Json` values or abstract
file states, and the orchestrator records its persistence effects in a
`TaskOutcome` structure.
-/

namespace Genyx

/-- A JSON value as decoded by Python's `json` module (`json.loads` /
`response.json()`).  Numbers are modelled as `Int`; an `obj` models a
Python `dict` as an association list with unique keys. -/
inductive Json where
  | null : Json
  | bool (b : Bool) : Json
  | num (n : Int) : Json
  | str (s : String) : Json
  | arr (elems : List Json) : Json
  | obj (fields : List (String × Json)) : Json
deriving Repr

/-- Python dict lookup `d.get(key, default)`: the value at `key`, if present. -/
def getField (fields : List (String × Json)) (key : String) : Option Json :=
  (fields.find? (fun p => p.1 == key)).map (fun p => p.2)

/-- Python truthiness of a decoded JSON value (`if text:`):
`None`, `False`, `0`, `""`, `[]` and an empty dict are falsy. -/
def truthy : Json → Bool
  | Json.null => false
  | Json.bool b => b
  | Json.num n => !(n == 0)
  | Json.str s => !(s == "")
  | Json.arr elems => !elems.isEmpty
  | Json.obj fields => !fields.isEmpty

mutual

/-- Python `repr` of a decoded JSON value, as used by `str()` on
non-string values: `None`, `True`/`False`, decimal numerals, quoted
strings, `[e1, e2]` lists and `\x7bk: v\x7d` dicts. -/
def pyRepr : Json → String
  | Json.null => "None"
  | Json.bool true => "True"
  | Json.bool false => "False"
  | Json.num n => toString n
  | Json.str s => "\x27" ++ s ++ "\x27"
  | Json.arr elems => "[" ++ pyReprElems elems ++ "]"
  | Json.obj fields => "\x7b" ++ pyReprFields fields ++ "\x7d"

/-- Comma-separated `repr`s of the elements of a Python list. -/
def pyReprElems : List Json → String
  | [] => ""
  | [x] => pyRepr x
  | x :: rest => pyRepr x ++ ", " ++ pyReprElems rest

/-- Comma-separated `key: value` pairs of a Python dict's `repr`. -/
def pyReprFields : List (String × Json) → String
  | [] => ""
  | [kv] => "\x27" ++ kv.1 ++ "\x27: " ++ pyRepr kv.2
  | kv :: rest => "\x27" ++ kv.1 ++ "\x27: " ++ pyRepr kv.2 ++ ", " ++ pyReprFields rest

end

/-- Python `str()` of a decoded JSON value (`text = str(result)`):
the string itself for a `str`, its `repr` otherwise. -/
def pyStr : Json → String
  | Json.str s => s
  | v => pyRepr v

/-- Outcome of the HTTP POST issued by `QwenClient.generate`
(`requests.post(...)`): a response with a status code and a body,
a `requests.Timeout`, or any other transport exception.  The body is
`Except.error ()` when `response.json()` raises (unparseable body);
it is only inspected on status 200. -/
inductive HttpResult where
  | response (status : Nat) (body : Except Unit Json) : HttpResult
  | timeout : HttpResult
  | exn : HttpResult

/-- The response-shape dispatch of `QwenClient.generate` on status 200
(lines 202–207): a non-empty list indexes `result[0].get("generated_text", "")`
(an `AttributeError`, modelled as `Except.error`, if `result[0]` is not a
dict), a dict uses `result.get("generated_text", "")`, anything else is
coerced with `str(result)`. -/
def extract200 : Json → Except Unit Json
  | Json.arr (first :: _) =>
      match first with
      | Json.obj fields => Except.ok ((getField fields "generated_text").getD (Json.str ""))
      | _ => Except.error ()
  | Json.obj fields => Except.ok ((getField fields "generated_text").getD (Json.str ""))
  | other => Except.ok (Json.str (pyStr other))

namespace QwenClient

/-- The method `QwenClient.generate` (lines 171–238): classify the HTTP outcome.
On status 200 the extracted text is returned when truthy, else `none`;
statuses 503, 401, 429 and every other status return `none`; a timeout
or any other exception (transport fault, body parse error, extraction
error) returns `none`.  Nothing escapes as an exception: the function
is total into `Option Json`. -/
def generate (resp : HttpResult) : Option Json :=
  match resp with
  | HttpResult.response status body =>
      if status = 200 then
        match body with
        | Except.error _ => none
        | Except.ok result =>
            match extract200 result with
            | Except.error _ => none
            | Except.ok text => if truthy text then some text else none
      else if status = 503 then none
      else if status = 401 then none
      else if status = 429 then none
      else none
  | HttpResult.timeout => none
  | HttpResult.exn => none

end QwenClient

/-- The `metadata` sub-dict of the brain-history document
(`_create_default`, lines 60–65). -/
structure Metadata where
  created_at : String
  version : String
  model : String
  total_interactions : Nat
deriving Repr, DecidableEq

/-- The `statistics` sub-dict of the brain-history document (lines 66–70). -/
structure Statistics where
  prompts_generated : Nat
  mindmaps_created : Nat
  sessions : Nat
deriving Repr, DecidableEq

/-- One entry of the `interactions` list, as appended by
`add_interaction` (lines 82–87). -/
structure InteractionRecord where
  timestamp : String
  type : String
  prompt : String
  response : String
deriving Repr, DecidableEq

/-- The brain-history document `self.data` of `BrainHistory`. -/
structure HistoryDocument where
  metadata : Metadata
  statistics : Statistics
  interactions : List InteractionRecord
deriving Repr, DecidableEq

namespace BrainHistory

/-- The method `BrainHistory._create_default` (lines 58–72); `now` stands for
`datetime.datetime.now().isoformat()`. -/
def create_default (now : String) : HistoryDocument :=
  { metadata :=
      { created_at := now
        version := "2.0.0"
        model := "Qwen/Qwen2.5-7B-Instruct"
        total_interactions := 0 }
    statistics :=
      { prompts_generated := 0
        mindmaps_created := 0
        sessions := 0 }
    interactions := [] }

/-- Lines 96–97 of `add_interaction`: when the interactions list exceeds
100 entries, keep only the last 100 (`interactions[-100:]`). -/
def cap_interactions (l : List InteractionRecord) : List InteractionRecord :=
  if l.length > 100 then l.drop (l.length - 100) else l

/-- The method `BrainHistory.add_interaction` (lines 81–99) acting on the document:
append the record with `prompt[:200]` and `response[:500]`, bump
`total_interactions`, bump the per-type counter, and when the list
exceeds 100 entries keep only the last 100 (`interactions[-100:]`).
The trailing `self.save()` rewrites the file and leaves the document
unchanged. -/
def add_interaction (doc : HistoryDocument) (now interaction_type prompt response : String) :
    HistoryDocument :=
  let doc1 :=
    { doc with interactions := doc.interactions ++
        [({ timestamp := now
            type := interaction_type
            prompt := prompt.take 200
            response := response.take 500 } : InteractionRecord)] }
  let doc2 :=
    { doc1 with metadata :=
        { doc1.metadata with total_interactions := doc1.metadata.total_interactions + 1 } }
  let doc3 :=
    if interaction_type = "prompt" then
      { doc2 with statistics :=
          { doc2.statistics with prompts_generated := doc2.statistics.prompts_generated + 1 } }
    else if interaction_type = "mindmap" then
      { doc2 with statistics :=
          { doc2.statistics with mindmaps_created := doc2.statistics.mindmaps_created + 1 } }
    else doc2
  { doc3 with interactions := cap_interactions doc3.interactions }

/-- The record appended by one `add_interaction` call with arguments
`(now, interaction_type, prompt, response)`. -/
def record_of (i : String × String × String × String) : InteractionRecord :=
  { timestamp := i.1
    type := i.2.1
    prompt := i.2.2.1.take 200
    response := i.2.2.2.take 500 }

/-- Iterating `add_interaction` over a list of call arguments, each a
`(now, interaction_type, prompt, response)` tuple. -/
def run_add_interactions (doc : HistoryDocument)
    (inputs : List (String × String × String × String)) : HistoryDocument :=
  inputs.foldl (fun d i => add_interaction d i.1 i.2.1 i.2.2.1 i.2.2.2) doc

/-- The method `BrainHistory.increment_session` (lines 109–111) acting on the
document: bump `statistics["sessions"]`; the `save()` call does not
change the document. -/
def increment_session (doc : HistoryDocument) : HistoryDocument :=
  { doc with statistics := { doc.statistics with sessions := doc.statistics.sessions + 1 } }

/-- The method `BrainHistory.get_stats` (lines 101–107). -/
def get_stats (doc : HistoryDocument) : Nat × Nat × Nat × Nat :=
  (doc.metadata.total_interactions,
   doc.statistics.prompts_generated,
   doc.statistics.mindmaps_created,
   doc.statistics.sessions)

end BrainHistory

/-- The JSON form of the document written by `BrainHistory.save`
(lines 74–79, `json.dump(self.data, ...)`): the dict layout built by
`_create_default` and `add_interaction`, field for field. -/
def HistoryDocument.toJson (doc : HistoryDocument) : Json :=
  Json.obj
    [("metadata", Json.obj
        [("created_at", Json.str doc.metadata.created_at),
         ("version", Json.str doc.metadata.version),
         ("model", Json.str doc.metadata.model),
         ("total_interactions", Json.num (Int.ofNat doc.metadata.total_interactions))]),
     ("statistics", Json.obj
        [("prompts_generated", Json.num (Int.ofNat doc.statistics.prompts_generated)),
         ("mindmaps_created", Json.num (Int.ofNat doc.statistics.mindmaps_created)),
         ("sessions", Json.num (Int.ofNat doc.statistics.sessions))]),
     ("interactions", Json.arr (doc.interactions.map (fun r =>
        Json.obj
          [("timestamp", Json.str r.timestamp),
           ("type", Json.str r.type),
           ("prompt", Json.str r.prompt),
           ("response", Json.str r.response)])))]

/-- Reading one interaction dict of the parsed history file back as an
`InteractionRecord`, the inverse of the shape written by `save`. -/
def InteractionRecord.fromJson? : Json → Option InteractionRecord
  | Json.obj [("timestamp", Json.str timestamp), ("type", Json.str type),
              ("prompt", Json.str prompt), ("response", Json.str response)] =>
      some ({ timestamp := timestamp, type := type, prompt := prompt, response := response } :
        InteractionRecord)
  | _ => none

/-- Reading the `metadata` sub-dict of the parsed history file back,
the inverse of the shape written by `save`. -/
def Metadata.fromJson? : Json → Option Metadata
  | Json.obj [("created_at", Json.str created_at),
              ("version", Json.str version),
              ("model", Json.str model),
              ("total_interactions", Json.num (Int.ofNat total_interactions))] =>
      some ({ created_at := created_at, version := version, model := model
              total_interactions := total_interactions } : Metadata)
  | _ => none

/-- Reading the `statistics` sub-dict of the parsed history file back,
the inverse of the shape written by `save`. -/
def Statistics.fromJson? : Json → Option Statistics
  | Json.obj [("prompts_generated", Json.num (Int.ofNat prompts_generated)),
              ("mindmaps_created", Json.num (Int.ofNat mindmaps_created)),
              ("sessions", Json.num (Int.ofNat sessions))] =>
      some ({ prompts_generated := prompts_generated
              mindmaps_created := mindmaps_created
              sessions := sessions } : Statistics)
  | _ => none

/-- Reading the parsed history file back as a `HistoryDocument`: the
program itself keeps the parsed dict as-is (`_load` returns `json.load(f)`
unvalidated), so this is the reinterpretation of that dict under the
shape `save` writes. -/
def HistoryDocument.fromJson? : Json → Option HistoryDocument
  | Json.obj [("metadata", meta), ("statistics", stats),
              ("interactions", Json.arr interactions)] =>
      match Metadata.fromJson? meta, Statistics.fromJson? stats,
            interactions.mapM InteractionRecord.fromJson? with
      | some m, some s, some records =>
          some { metadata := m, statistics := s, interactions := records }
      | _, _, _ => none
  | _ => none

/-- The observable state of `brain_history.json` when `_load` runs:
absent, present but unreadable (`open` raises), present but not valid
JSON (`json.load` raises), or readable with parsed content `j`. -/
inductive FileState where
  | missing : FileState
  | unreadable : FileState
  | invalid : FileState
  | content (j : Json) : FileState

namespace BrainHistory

/-- The method `BrainHistory._load` (lines 49–56): if the file exists, try to parse
it, falling back to `_create_default()` on any exception (the bare
`except:` catches everything); if it does not exist, return the default.
The parsed dict is returned unvalidated, so the result is a `Json`
value; `now` stands for `datetime.datetime.now().isoformat()` used by
`_create_default`. -/
def load (file : FileState) (now : String) : Json :=
  match file with
  | FileState.missing => (create_default now).toJson
  | FileState.unreadable => (create_default now).toJson
  | FileState.invalid => (create_default now).toJson
  | FileState.content j => j

end BrainHistory

/-- Python `str.strip()` as applied to the topic read from the user
(`topic = input(...).strip()`, lines 302 and 342): remove leading and
trailing whitespace characters. -/
def pyStrip (s : String) : String :=
  ⟨((s.data.dropWhile Char.isWhitespace).reverse.dropWhile Char.isWhitespace).reverse⟩

/-- The instruction template of `GenyxAI.generate_prompt` (lines 308–319). -/
def prompt_template (topic : String) : String :=
  "You are an expert prompt engineer. Create a detailed professional prompt for: " ++
  topic ++
  "\n\nInclude:\n1. OBJECTIVE: Main goal\n2. CONTEXT: Background\n" ++
  "3. REQUIREMENTS: Specific elements\n4. CONSTRAINTS: Limitations\n" ++
  "5. OUTPUT FORMAT: Structure\n6. STYLE: Tone\n7. EXAMPLES: Scenarios\n\n" ++
  "Make it actionable and specific."

/-- The instruction template of `GenyxAI.create_mindmap` (lines 348–368). -/
def mindmap_template (topic : String) : String :=
  "Create a detailed mind map for: " ++ topic ++
  "\n\nCENTRAL CONCEPT: " ++ topic ++
  "\n\nMAIN BRANCHES (5-7):\n- Branch 1: [Category]\n  - Sub 1.1: [Detail]\n" ++
  "  - Sub 1.2: [Detail]\n\n- Branch 2: [Category]\n  - Sub 2.1: [Detail]\n\n" ++
  "[Continue...]\n\nKEY CONNECTIONS:\n- Relationships between branches\n\n" ++
  "APPLICATIONS:\n- Real-world uses\n\nFormat as clear indented text."

/-- What one call of a task handler did: the result it surfaced (printed
under RESPOSTA/MAPA MENTAL, i.e. the `handleTask` return value of the
spec), the `(prompt, max_tokens)` of each `client.generate` network
call it issued, the arguments of each `brain.add_interaction` call, and
the arguments of each `logger.log` call. -/
structure TaskOutcome where
  result : Option Json
  apiCalls : List (String × Nat)
  interactionsAdded : List (String × String × Json)
  logEntries : List (String × String × Json)

namespace GenyxAI

/-- The method `GenyxAI.generate_prompt` (lines 296–334).  `rawTopic` is the line
read from the user; it is stripped, the empty topic is rejected with no
network call and no persistence, otherwise the template is sent through
the client (modelled as the function `client` from `(prompt, max_tokens)`
to the value `QwenClient.generate` returns) and a truthy result is
committed to the history store and the learning log before being
surfaced. -/
def generate_prompt (client : String → Nat → Option Json) (rawTopic : String) : TaskOutcome :=
  let topic := pyStrip rawTopic
  if topic = "" then
    { result := none, apiCalls := [], interactionsAdded := [], logEntries := [] }
  else
    let template := prompt_template topic
    let result := client template 800
    match result with
    | some v =>
        if truthy v then
          { result := some v
            apiCalls := [(template, 800)]
            interactionsAdded := [("prompt", topic, v)]
            logEntries := [("prompt_generation", topic, v)] }
        else
          { result := none, apiCalls := [(template, 800)], interactionsAdded := []
            logEntries := [] }
    | none =>
        { result := none, apiCalls := [(template, 800)], interactionsAdded := []
          logEntries := [] }

/-- The method `GenyxAI.create_mindmap` (lines 336–383), same shape as
`generate_prompt` with the mind-map template, 1000 max tokens and the
`mindmap` interaction type. -/
def create_mindmap (client : String → Nat → Option Json) (rawTopic : String) : TaskOutcome :=
  let topic := pyStrip rawTopic
  if topic = "" then
    { result := none, apiCalls := [], interactionsAdded := [], logEntries := [] }
  else
    let template := mindmap_template topic
    let result := client template 1000
    match result with
    | some v =>
        if truthy v then
          { result := some v
            apiCalls := [(template, 1000)]
            interactionsAdded := [("mindmap", topic, v)]
            logEntries := [("mindmap_creation", topic, v)] }
        else
          { result := none, apiCalls := [(template, 1000)], interactionsAdded := []
            logEntries := [] }
    | none =>
        { result := none, apiCalls := [(template, 1000)], interactionsAdded := []
          logEntries := [] }

end GenyxAI

/-! ## Helper lemmas -/

theorem add_interaction_interactions (doc : HistoryDocument)
    (now ty p r : String) :
    (BrainHistory.add_interaction doc now ty p r).interactions =
      BrainHistory.cap_interactions (doc.interactions ++
        [{ timestamp := now, type := ty, prompt := p.take 200, response := r.take 500 }]) := by
  simp only [BrainHistory.add_interaction]
  split
  · rfl
  · split <;> rfl

theorem add_interaction_total (doc : HistoryDocument) (now ty p r : String) :
    (BrainHistory.add_interaction doc now ty p r).metadata.total_interactions =
      doc.metadata.total_interactions + 1 := by
  simp only [BrainHistory.add_interaction]
  split
  · rfl
  · split <;> rfl

theorem cap_interactions_of_le (l : List InteractionRecord) (h : l.length ≤ 100) :
    BrainHistory.cap_interactions l = l := by
  unfold BrainHistory.cap_interactions
  rw [if_neg]
  omega

theorem cap_interactions_of_gt (l : List InteractionRecord) (h : l.length > 100) :
    BrainHistory.cap_interactions l = l.drop (l.length - 100) := by
  unfold BrainHistory.cap_interactions
  rw [if_pos h]

theorem cap_interactions_length (l : List InteractionRecord) :
    (BrainHistory.cap_interactions l).length = min l.length 100 := by
  by_cases h : l.length > 100
  · rw [cap_interactions_of_gt l h, List.length_drop]
    omega
  · rw [cap_interactions_of_le l (by omega)]
    omega

theorem cap_interactions_append_one (l : List InteractionRecord) (r : InteractionRecord) :
    BrainHistory.cap_interactions (BrainHistory.cap_interactions l ++ [r]) =
      BrainHistory.cap_interactions (l ++ [r]) := by
  by_cases h : l.length > 100
  · rw [cap_interactions_of_gt l h]
    have hlen : (l.drop (l.length - 100)).length = 100 := by
      rw [List.length_drop]; omega
    have h1 : (l.drop (l.length - 100) ++ [r]).length > 100 := by
      rw [List.length_append, hlen, List.length_singleton]; omega
    have h2 : (l ++ [r]).length > 100 := by
      rw [List.length_append, List.length_singleton]; omega
    rw [cap_interactions_of_gt _ h1, cap_interactions_of_gt _ h2,
        List.length_append, List.length_append, hlen, List.length_singleton]
    have e1 : (100 + 1 - 100 : Nat) = 1 := by omega
    have e2 : l.length + 1 - 100 = l.length - 99 := by omega
    rw [e1, e2,
        List.drop_append_of_le_length (by rw [hlen]; omega),
        List.drop_append_of_le_length (by omega),
        List.drop_drop]
    have e3 : l.length - 100 + 1 = l.length - 99 := by omega
    rw [e3]
  · rw [cap_interactions_of_le l (by omega)]

theorem run_add_interactions_total (inputs : List (String × String × String × String)) :
    ∀ doc : HistoryDocument,
      (BrainHistory.run_add_interactions doc inputs).metadata.total_interactions =
        doc.metadata.total_interactions + inputs.length := by
  induction inputs with
  | nil => intro doc; rfl
  | cons i rest ih =>
      intro doc
      have : BrainHistory.run_add_interactions doc (i :: rest) =
          BrainHistory.run_add_interactions
            (BrainHistory.add_interaction doc i.1 i.2.1 i.2.2.1 i.2.2.2) rest := rfl
      rw [this, ih, add_interaction_total, List.length_cons]
      omega

theorem run_add_interactions_interactions
    (inputs : List (String × String × String × String)) :
    ∀ doc : HistoryDocument, doc.interactions.length ≤ 100 →
      (BrainHistory.run_add_interactions doc inputs).interactions =
        BrainHistory.cap_interactions
          (doc.interactions ++ inputs.map BrainHistory.record_of) := by
  induction inputs using List.reverseRecOn with
  | nil =>
      intro doc h
      simp only [BrainHistory.run_add_interactions, List.foldl_nil, List.map_nil,
        List.append_nil]
      rw [cap_interactions_of_le doc.interactions h]
  | append_singleton rest i ih =>
      intro doc h
      have hrun : BrainHistory.run_add_interactions doc (rest ++ [i]) =
          BrainHistory.add_interaction (BrainHistory.run_add_interactions doc rest)
            i.1 i.2.1 i.2.2.1 i.2.2.2 := by
        simp only [BrainHistory.run_add_interactions, List.foldl_append, List.foldl_cons,
          List.foldl_nil]
      rw [hrun, add_interaction_interactions, ih doc h, cap_interactions_append_one,
        List.map_append, List.map_cons, List.map_nil, List.append_assoc]
      rfl

theorem cap_interactions_getLast_concat (l : List InteractionRecord) (r : InteractionRecord) :
    (BrainHistory.cap_interactions (l ++ [r])).getLast? = some r := by
  by_cases h : (l ++ [r]).length > 100
  · rw [cap_interactions_of_gt _ h]
    rw [List.length_append, List.length_singleton] at h
    rw [List.length_append, List.length_singleton,
        List.drop_append_of_le_length (by omega)]
    exact List.getLast?_concat _
  · rw [cap_interactions_of_le _ (by omega)]
    exact List.getLast?_concat _

theorem mem_of_mem_cap_interactions {l : List InteractionRecord} {x : InteractionRecord}
    (h : x ∈ BrainHistory.cap_interactions l) : x ∈ l := by
  unfold BrainHistory.cap_interactions at h
  split at h
  · exact List.mem_of_mem_drop h
  · exact h

theorem string_take_length_le (s : String) (n : Nat) : (s.take n).length ≤ n := by
  rw [String.take_eq]
  show (s.data.take n).length ≤ n
  rw [List.length_take]
  omega

theorem metadata_fromJson_encode (m : Metadata) :
    Metadata.fromJson? (Json.obj
      [("created_at", Json.str m.created_at), ("version", Json.str m.version),
       ("model", Json.str m.model),
       ("total_interactions", Json.num (Int.ofNat m.total_interactions))]) = some m := rfl

theorem statistics_fromJson_encode (s : Statistics) :
    Statistics.fromJson? (Json.obj
      [("prompts_generated", Json.num (Int.ofNat s.prompts_generated)),
       ("mindmaps_created", Json.num (Int.ofNat s.mindmaps_created)),
       ("sessions", Json.num (Int.ofNat s.sessions))]) = some s := rfl

theorem interaction_encode_mapM (l : List InteractionRecord) :
    (l.map (fun r => Json.obj
      [("timestamp", Json.str r.timestamp), ("type", Json.str r.type),
       ("prompt", Json.str r.prompt), ("response", Json.str r.response)])).mapM
      InteractionRecord.fromJson? = some l := by
  induction l with
  | nil => rfl
  | cons r rest ih =>
      rw [List.map_cons, List.mapM_cons,
          show InteractionRecord.fromJson? (Json.obj
            [("timestamp", Json.str r.timestamp), ("type", Json.str r.type),
             ("prompt", Json.str r.prompt), ("response", Json.str r.response)]) = some r
            from rfl,
          ih]
      rfl

theorem generate_none_or_truthy (resp : HttpResult) :
    QwenClient.generate resp = none ∨
      ∃ v, QwenClient.generate resp = some v ∧ truthy v = true := by
  cases resp with
  | timeout => exact Or.inl rfl
  | exn => exact Or.inl rfl
  | response status body =>
      by_cases h : status = 200
      · subst h
        cases body with
        | error e => exact Or.inl rfl
        | ok result =>
            cases hex : extract200 result with
            | error e => left; simp [QwenClient.generate, hex]
            | ok text =>
                by_cases ht : truthy text
                · right
                  exact ⟨text, by simp [QwenClient.generate, hex, ht], ht⟩
                · left
                  simp [QwenClient.generate, hex, ht]
      · left
        simp [QwenClient.generate, h]

theorem generate_prompt_result_none_or_truthy (client : String → Nat → Option Json)
    (rawTopic : String) :
    (GenyxAI.generate_prompt client rawTopic).result = none ∨
      ∃ v, (GenyxAI.generate_prompt client rawTopic).result = some v ∧ truthy v = true := by
  simp only [GenyxAI.generate_prompt]
  split
  · exact Or.inl rfl
  · cases hc : client (prompt_template (pyStrip rawTopic)) 800 with
    | none => exact Or.inl rfl
    | some v =>
        by_cases ht : truthy v
        · right
          exact ⟨v, by simp [ht], ht⟩
        · left
          simp [ht]

theorem create_mindmap_result_none_or_truthy (client : String → Nat → Option Json)
    (rawTopic : String) :
    (GenyxAI.create_mindmap client rawTopic).result = none ∨
      ∃ v, (GenyxAI.create_mindmap client rawTopic).result = some v ∧ truthy v = true := by
  simp only [GenyxAI.create_mindmap]
  split
  · exact Or.inl rfl
  · cases hc : client (mindmap_template (pyStrip rawTopic)) 1000 with
    | none => exact Or.inl rfl
    | some v =>
        by_cases ht : truthy v
        · right
          exact ⟨v, by simp [ht], ht⟩
        · left
          simp [ht]

theorem result_ne_empty_str {o : Option Json}
    (h : o = none ∨ ∃ v, o = some v ∧ truthy v = true) : o ≠ some (Json.str "") := by
  intro he
  rcases h with h | ⟨v, hv, ht⟩
  · rw [he] at h
    exact Option.noConfusion h
  · rw [he] at hv
    rw [← Option.some.inj hv] at ht
    simp [truthy] at ht

/-! ## Claim theorems -/

/-- C1: for every HTTP status code other than 200, and whenever the
request times out or any transport or parse exception occurs (including
a body that fails to parse and an extraction error on a malformed 200
body), `QwenClient.generate` returns `none`; being a total function
into `Option Json`, it propagates no exception. -/
theorem C1_generate_normalizes_faults :
    (∀ (status : Nat) (body : Except Unit Json), status ≠ 200 →
        QwenClient.generate (HttpResult.response status body) = none) ∧
    QwenClient.generate HttpResult.timeout = none ∧
    QwenClient.generate HttpResult.exn = none ∧
    QwenClient.generate (HttpResult.response 200 (Except.error ())) = none ∧
    (∀ result : Json, extract200 result = Except.error () →
        QwenClient.generate (HttpResult.response 200 (Except.ok result)) = none) := by
  refine ⟨?_, rfl, rfl, rfl, ?_⟩
  · intro status body h
    simp [QwenClient.generate, h]
  · intro result h
    simp [QwenClient.generate, h]

/-- Witness for C1 at status 404 and at a 200 body whose first list
element is not an object (extraction raises). -/
theorem C1_witness :
    QwenClient.generate (HttpResult.response 404 (Except.ok Json.null)) = none ∧
    QwenClient.generate (HttpResult.response 200 (Except.ok (Json.arr [Json.num 1]))) = none :=
  ⟨C1_generate_normalizes_faults.1 404 (Except.ok Json.null) (by decide),
   C1_generate_normalizes_faults.2.2.2.2 (Json.arr [Json.num 1]) rfl⟩

/-- C3: on HTTP 200, `generate` extracts the generated text from a
list-of-objects body and from a single-object body (any non-empty
text), and concretely the body `[{"generated_text": "Hello"}]` yields
`"Hello"` while `[{"generated_text": ""}]` yields `none`. -/
theorem C3_generate_200_extraction :
    (∀ t : String, t ≠ "" →
        QwenClient.generate (HttpResult.response 200 (Except.ok
          (Json.arr [Json.obj [("generated_text", Json.str t)]]))) = some (Json.str t) ∧
        QwenClient.generate (HttpResult.response 200 (Except.ok
          (Json.obj [("generated_text", Json.str t)]))) = some (Json.str t)) ∧
    QwenClient.generate (HttpResult.response 200 (Except.ok
      (Json.arr [Json.obj [("generated_text", Json.str "Hello")]]))) =
        some (Json.str "Hello") ∧
    QwenClient.generate (HttpResult.response 200 (Except.ok
      (Json.arr [Json.obj [("generated_text", Json.str "")]]))) = none := by
  refine ⟨?_, rfl, rfl⟩
  intro t h
  constructor <;> simp [QwenClient.generate, extract200, getField, truthy, h]

/-- Witness for C3 at `t = "Hello"`. -/
theorem C3_witness :
    QwenClient.generate (HttpResult.response 200 (Except.ok
      (Json.arr [Json.obj [("generated_text", Json.str "Hello")]]))) =
        some (Json.str "Hello") ∧
    QwenClient.generate (HttpResult.response 200 (Except.ok
      (Json.obj [("generated_text", Json.str "Hello")]))) = some (Json.str "Hello") :=
  C3_generate_200_extraction.1 "Hello" (by decide)

/-- C5: an empty or whitespace-only topic is rejected locally: both task
handlers surface `none`, issue no network call, add no interaction to
the history store, and write nothing to the learning log. -/
theorem C5_empty_topic_local_reject :
    ∀ (client : String → Nat → Option Json) (rawTopic : String), pyStrip rawTopic = "" →
      GenyxAI.generate_prompt client rawTopic =
        { result := none, apiCalls := [], interactionsAdded := [], logEntries := [] } ∧
      GenyxAI.create_mindmap client rawTopic =
        { result := none, apiCalls := [], interactionsAdded := [], logEntries := [] } := by
  intro client rawTopic h
  constructor
  · simp [GenyxAI.generate_prompt, h]
  · simp [GenyxAI.create_mindmap, h]

/-- Witness for C5 at the whitespace-only topic `"   "`. -/
theorem C5_witness :
    GenyxAI.generate_prompt (fun _ _ => some (Json.str "x")) "   " =
      { result := none, apiCalls := [], interactionsAdded := [], logEntries := [] } ∧
    GenyxAI.create_mindmap (fun _ _ => some (Json.str "x")) "   " =
      { result := none, apiCalls := [], interactionsAdded := [], logEntries := [] } :=
  C5_empty_topic_local_reject (fun _ _ => some (Json.str "x")) "   " (by decide)

/-- C8: `_load` never raises: on a missing, unreadable or unparseable
history file it returns the freshly created default document, whose
statistics counters are all zero, whose `total_interactions` is zero
and whose interactions list is empty. -/
theorem C8_load_defaults_on_failure :
    ∀ now : String,
      BrainHistory.load FileState.missing now = (BrainHistory.create_default now).toJson ∧
      BrainHistory.load FileState.unreadable now = (BrainHistory.create_default now).toJson ∧
      BrainHistory.load FileState.invalid now = (BrainHistory.create_default now).toJson ∧
      (BrainHistory.create_default now).statistics =
        { prompts_generated := 0, mindmaps_created := 0, sessions := 0 } ∧
      (BrainHistory.create_default now).metadata.total_interactions = 0 ∧
      (BrainHistory.create_default now).interactions = [] :=
  fun _ => ⟨rfl, rfl, rfl, rfl, rfl, rfl⟩

/-- C2: starting from the default history document, after `N ≥ 101`
iterated `add_interaction` calls the stored interactions list is
exactly the last 100 of the appended records (the oldest dropped), has
length exactly 100, and `metadata.total_interactions` equals `N`. -/
theorem C2_cap_invariant :
    ∀ (now : String) (inputs : List (String × String × String × String)),
      101 ≤ inputs.length →
      (BrainHistory.run_add_interactions (BrainHistory.create_default now)
          inputs).interactions =
        (inputs.map BrainHistory.record_of).drop (inputs.length - 100) ∧
      (BrainHistory.run_add_interactions (BrainHistory.create_default now)
          inputs).interactions.length = 100 ∧
      (BrainHistory.run_add_interactions (BrainHistory.create_default now)
          inputs).metadata.total_interactions = inputs.length := by
  intro now inputs h
  have hint := run_add_interactions_interactions inputs (BrainHistory.create_default now)
    (by rw [show (BrainHistory.create_default now).interactions = [] from rfl]; simp)
  rw [show (BrainHistory.create_default now).interactions = [] from rfl,
      List.nil_append] at hint
  have hgt : (inputs.map BrainHistory.record_of).length > 100 := by
    rw [List.length_map]; omega
  refine ⟨?_, ?_, ?_⟩
  · rw [hint, cap_interactions_of_gt _ hgt, List.length_map]
  · rw [hint, cap_interactions_length, List.length_map]
    omega
  · rw [run_add_interactions_total,
        show (BrainHistory.create_default now).metadata.total_interactions = 0 from rfl]
    omega

/-- Witness for C2: 101 identical calls starting from the default
document. -/
theorem C2_witness :
    101 ≤ (List.replicate 101
      (("t", "prompt", "p", "r") : String × String × String × String)).length ∧
    ((BrainHistory.run_add_interactions (BrainHistory.create_default "now")
        (List.replicate 101 ("t", "prompt", "p", "r"))).interactions =
      ((List.replicate 101
          (("t", "prompt", "p", "r") : String × String × String × String)).map
        BrainHistory.record_of).drop
          ((List.replicate 101
            (("t", "prompt", "p", "r") : String × String × String × String)).length - 100) ∧
    (BrainHistory.run_add_interactions (BrainHistory.create_default "now")
        (List.replicate 101 ("t", "prompt", "p", "r"))).interactions.length = 100 ∧
    (BrainHistory.run_add_interactions (BrainHistory.create_default "now")
        (List.replicate 101 ("t", "prompt", "p", "r"))).metadata.total_interactions =
      (List.replicate 101
        (("t", "prompt", "p", "r") : String × String × String × String)).length) :=
  ⟨by simp, C2_cap_invariant "now" (List.replicate 101 ("t", "prompt", "p", "r")) (by simp)⟩

/-- C6: every record stored by `add_interaction` holds the prompt
truncated to at most its first 200 characters and the response to at
most its first 500: the appended record is exactly the truncation of
the call arguments, those truncations respect the bounds, and the
bounds are preserved across the whole stored list. -/
theorem C6_truncation :
    ∀ (doc : HistoryDocument) (now ty p r : String),
      (BrainHistory.add_interaction doc now ty p r).interactions.getLast? =
        some { timestamp := now, type := ty, prompt := p.take 200,
               response := r.take 500 } ∧
      (p.take 200).length ≤ 200 ∧
      (r.take 500).length ≤ 500 ∧
      ((∀ rec ∈ doc.interactions, rec.prompt.length ≤ 200 ∧ rec.response.length ≤ 500) →
        ∀ rec ∈ (BrainHistory.add_interaction doc now ty p r).interactions,
          rec.prompt.length ≤ 200 ∧ rec.response.length ≤ 500) := by
  intro doc now ty p r
  refine ⟨?_, string_take_length_le p 200, string_take_length_le r 500, ?_⟩
  · rw [add_interaction_interactions]
    exact cap_interactions_getLast_concat _ _
  · intro hprev rec hmem
    rw [add_interaction_interactions] at hmem
    rcases List.mem_append.mp (mem_of_mem_cap_interactions hmem) with hl | hr
    · exact hprev rec hl
    · rw [List.mem_singleton] at hr
      subst hr
      simp only []
      exact ⟨string_take_length_le _ _, string_take_length_le _ _⟩

/-- Witness for C6: one call on the default document; the single stored
record satisfies the truncation bounds. -/
theorem C6_witness :
    ({ timestamp := "t", type := "prompt", prompt := "p".take 200,
       response := "r".take 500 } : InteractionRecord).prompt.length ≤ 200 ∧
    ({ timestamp := "t", type := "prompt", prompt := "p".take 200,
       response := "r".take 500 } : InteractionRecord).response.length ≤ 500 :=
  (C6_truncation (BrainHistory.create_default "c") "t" "prompt" "p" "r").2.2.2
    (by rw [show (BrainHistory.create_default "c").interactions = [] from rfl]; simp)
    _
    (by rw [add_interaction_interactions,
            show (BrainHistory.create_default "c").interactions = [] from rfl,
            List.nil_append, cap_interactions_of_le _ (by simp)]
        exact List.mem_singleton.mpr rfl)

/-- C7: the document written by `save` reloads to an equal document:
`_load` on a readable file holding the saved JSON returns it verbatim,
and reading that JSON back under the saved shape restores the document
exactly — counters, metadata and the full interaction list (the cap is
applied by `add_interaction` before saving, never at save/load time, so
no truncation occurs here). -/
theorem C7_save_load_roundtrip :
    ∀ (doc : HistoryDocument) (now : String),
      BrainHistory.load (FileState.content doc.toJson) now = doc.toJson ∧
      HistoryDocument.fromJson? doc.toJson = some doc := by
  intro doc now
  refine ⟨rfl, ?_⟩
  simp only [HistoryDocument.toJson, HistoryDocument.fromJson?, interaction_encode_mapM,
    metadata_fromJson_encode, statistics_fromJson_encode]

/-- C4: for every topic that is non-empty after stripping, each task
handler — its client being `QwenClient.generate` over an arbitrary HTTP
outcome — surfaces either no result or a truthy value (for string
results, a non-empty string); in particular neither handler can ever
surface the empty string. -/
theorem C4_no_empty_string_result :
    ∀ (resp : HttpResult) (rawTopic : String), pyStrip rawTopic ≠ "" →
      ((GenyxAI.generate_prompt (fun _ _ => QwenClient.generate resp) rawTopic).result =
          none ∨
        ∃ v, (GenyxAI.generate_prompt (fun _ _ => QwenClient.generate resp)
            rawTopic).result = some v ∧ truthy v = true) ∧
      (GenyxAI.generate_prompt (fun _ _ => QwenClient.generate resp) rawTopic).result ≠
        some (Json.str "") ∧
      ((GenyxAI.create_mindmap (fun _ _ => QwenClient.generate resp) rawTopic).result =
          none ∨
        ∃ v, (GenyxAI.create_mindmap (fun _ _ => QwenClient.generate resp)
            rawTopic).result = some v ∧ truthy v = true) ∧
      (GenyxAI.create_mindmap (fun _ _ => QwenClient.generate resp) rawTopic).result ≠
        some (Json.str "") := by
  intro resp rawTopic _
  have h1 := generate_prompt_result_none_or_truthy
    (fun _ _ => QwenClient.generate resp) rawTopic
  have h2 := create_mindmap_result_none_or_truthy
    (fun _ _ => QwenClient.generate resp) rawTopic
  exact ⟨h1, result_ne_empty_str h1, h2, result_ne_empty_str h2⟩

/-- Witness for C4 at the topic `"math"` and a successful 200 response. -/
theorem C4_witness :
    ((GenyxAI.generate_prompt
        (fun _ _ => QwenClient.generate (HttpResult.response 200 (Except.ok
          (Json.arr [Json.obj [("generated_text", Json.str "Hello")]]))))
        "math").result = none ∨
      ∃ v, (GenyxAI.generate_prompt
          (fun _ _ => QwenClient.generate (HttpResult.response 200 (Except.ok
            (Json.arr [Json.obj [("generated_text", Json.str "Hello")]]))))
          "math").result = some v ∧ truthy v = true) ∧
    (GenyxAI.generate_prompt
        (fun _ _ => QwenClient.generate (HttpResult.response 200 (Except.ok
          (Json.arr [Json.obj [("generated_text", Json.str "Hello")]]))))
        "math").result ≠ some (Json.str "") ∧
    ((GenyxAI.create_mindmap
        (fun _ _ => QwenClient.generate (HttpResult.response 200 (Except.ok
          (Json.arr [Json.obj [("generated_text", Json.str "Hello")]]))))
        "math").result = none ∨
      ∃ v, (GenyxAI.create_mindmap
          (fun _ _ => QwenClient.generate (HttpResult.response 200 (Except.ok
            (Json.arr [Json.obj [("generated_text", Json.str "Hello")]]))))
          "math").result = some v ∧ truthy v = true) ∧
    (GenyxAI.create_mindmap
        (fun _ _ => QwenClient.generate (HttpResult.response 200 (Except.ok
          (Json.arr [Json.obj [("generated_text", Json.str "Hello")]]))))
        "math").result ≠ some (Json.str "") :=
  C4_no_empty_string_result
    (HttpResult.response 200 (Except.ok
      (Json.arr [Json.obj [("generated_text", Json.str "Hello")]])))
    "math" (by decide)

/-- C9 is false as stated: the body `Json.str ""` (the JSON document
`""`) is neither a non-empty list nor an object, yet `generate` returns
`none` on it rather than the (here empty) string coercion of the body. -/
theorem C9_counterexample :
    QwenClient.generate (HttpResult.response 200 (Except.ok (Json.str ""))) ≠
      some (Json.str (pyStr (Json.str ""))) ∧
    QwenClient.generate (HttpResult.response 200 (Except.ok (Json.str ""))) = none := by
  have h : QwenClient.generate (HttpResult.response 200 (Except.ok (Json.str ""))) =
      none := rfl
  exact ⟨by rw [h]; simp, h⟩

/-- C9 amended: on a 200 response whose JSON body is neither a
non-empty list nor an object, `generate` returns the string coercion of
the body whenever that coercion is non-empty — in particular the empty
list `[]` yields `"[]"` — while a body whose coercion is empty (the
empty JSON string) yields `none`. -/
theorem C9_str_coercion_amended :
    (∀ body : Json,
        (∀ x rest, body ≠ Json.arr (x :: rest)) →
        (∀ fields, body ≠ Json.obj fields) →
        pyStr body ≠ "" →
        QwenClient.generate (HttpResult.response 200 (Except.ok body)) =
          some (Json.str (pyStr body))) ∧
    QwenClient.generate (HttpResult.response 200 (Except.ok (Json.arr []))) =
      some (Json.str "[]") ∧
    QwenClient.generate (HttpResult.response 200 (Except.ok (Json.str ""))) = none := by
  refine ⟨?_, ?_, rfl⟩
  · intro body h1 h2 h3
    have hex : extract200 body = Except.ok (Json.str (pyStr body)) := by
      cases body with
      | arr elems =>
          cases elems with
          | nil => rfl
          | cons x rest => exact absurd rfl (h1 x rest)
      | obj fields => exact absurd rfl (h2 fields)
      | null => rfl
      | bool b => rfl
      | num n => rfl
      | str s => rfl
    simp [QwenClient.generate, hex, truthy, h3]
  · have hstr : pyStr (Json.arr []) = "[]" := rfl
    simp [QwenClient.generate, extract200, truthy, hstr]

/-- Witness for the amended C9 at the body `42`. -/
theorem C9_amended_witness :
    QwenClient.generate (HttpResult.response 200 (Except.ok (Json.num 42))) =
      some (Json.str (pyStr (Json.num 42))) :=
  C9_str_coercion_amended.1 (Json.num 42)
    (fun x rest h => Json.noConfusion h)
    (fun fields h => Json.noConfusion h)
    (by decide)

/-- C10: `increment_session` changes only the `sessions` counter, which
grows by exactly 1; metadata (including `total_interactions`), the two
per-type counters and the interactions list are untouched. -/
theorem C10_increment_session_frame :
    ∀ doc : HistoryDocument,
      (BrainHistory.increment_session doc).metadata = doc.metadata ∧
      (BrainHistory.increment_session doc).statistics.prompts_generated =
        doc.statistics.prompts_generated ∧
      (BrainHistory.increment_session doc).statistics.mindmaps_created =
        doc.statistics.mindmaps_created ∧
      (BrainHistory.increment_session doc).interactions = doc.interactions ∧
      (BrainHistory.increment_session doc).statistics.sessions =
        doc.statistics.sessions + 1 :=
  fun _ => ⟨rfl, rfl, rfl, rfl, rfl⟩

end Genyx
